import Mathlib

/-!
Shallow embedding of the evmfactory Solana program
(src/solana/programs/evmfactory/src/) in Lean 4.

Conventions of the embedding:
* `Pubkey` values are abstract identities, modelled as `Nat`.  The reserved
  native-currency mint `spl_token::native_mint::ID` is the distinguished
  constant `native_mint_ID`; the SPL token program id is `tokenProgramId`.
* `u64` values are `Nat` together with explicit `% 2 ^ 64` or side conditions
  where the Rust code can overflow or truncate; `u128` checked arithmetic is
  `checked_mul_u128`; `i64` values are `Int` with `checked_add_i64` mirroring
  `i64::checked_add`.
* Fallible Rust code (`Result<T>`) becomes `Except TxError T`.  `TxError`
  separates the program errors of errors.rs from failures raised by the
  platform itself (system-program transfers with insufficient funds, SPL
  token account deserialization, SPL close of a non-empty account).
  Note: admin.rs and order.rs reference `EvmFactoryError::RentExemptionViolation`
  and `EvmFactoryError::InvalidTokenProgram`; both are included here although
  the enum in errors.rs does not list them.
* Each instruction handler is a pure function from the accounts it touches
  (records plus their native lamport balances, and a positional
  `remaining_accounts` side table for the SPL paths) to an `Except` of the
  post-state.  Anchor `#[account(constraint ...)]` checks, which run before
  the handler body, appear as the leading checks of the function.
* The outcome of the external ed25519 signature verification
  (`verify_author_signature`, a cross-program invocation) is modelled as a
  boolean parameter `sig_ok`.
-/

namespace EvmFactory

/-- The distinguished native mint identity (spl_token::native_mint::ID). -/
def native_mint_ID : Nat := 0

/-- The SPL token program id (anchor_spl::token::ID). -/
def tokenProgramId : Nat := 1

/-- Error codes of the program, from errors.rs (plus RentExemptionViolation and
InvalidTokenProgram, which admin.rs and order.rs reference by name). -/
inductive EvmFactoryError where
  | InvalidAuthority
  | ListingNotActive
  | OrderAlreadySettled
  | InvalidOffchainSignature
  | ContestResolved
  | SubscriptionInactive
  | SubscriptionPeriodNotReached
  | MathOverflow
  | PriceMismatch
  | EscrowBalanceTooLow
  | InvalidFeeBps
  | InvalidPrizeAmount
  | ContestDeadlineNotReached
  | ContestDeadlinePassed
  | WinnerAccountMismatch
  | TokenNotWhitelisted
  | TokenAlreadyWhitelisted
  | WhitelistFull
  | MissingTokenAccounts
  | TokenAccountOwnerMismatch
  | TokenAccountMintMismatch
  | AmountMustBePositive
  | RentExemptionViolation
  | InvalidTokenProgram
  deriving DecidableEq, Repr

/-- Failures observable by a transaction: a program error, or an error raised
by an invoked platform program (system transfer with insufficient funds,
token-account deserialization failure, SPL close of a non-empty account). -/
inductive TxError where
  | program (e : EvmFactoryError)
  | insufficientFunds
  | accountInvalid
  | splAccountNotEmpty
  deriving DecidableEq, Repr

/-- u128 checked multiplication (`u128::checked_mul`). -/
def checked_mul_u128 (a b : Nat) : Option Nat :=
  if a * b < 2 ^ 128 then some (a * b) else none

/-- u64 checked subtraction (`u64::checked_sub`). -/
def checked_sub_u64 (a b : Nat) : Option Nat :=
  if b ≤ a then some (a - b) else none

/-- i64 checked addition (`i64::checked_add`). -/
def checked_add_i64 (a b : Int) : Option Int :=
  if -(2 ^ 63) ≤ a + b ∧ a + b ≤ 2 ^ 63 - 1 then some (a + b) else none

/-- utils.rs `compute_fee`: short-circuits to 0 when `fee_bps` is 0, otherwise
multiplies in u128, divides by 10000 and casts the quotient back to u64
(the cast is the `% 2 ^ 64`). -/
def compute_fee (amount : Nat) (fee_bps : Nat) : Except EvmFactoryError Nat :=
  if fee_bps = 0 then .ok 0
  else
    match checked_mul_u128 amount fee_bps with
    | none => .error .MathOverflow
    | some numerator => .ok ((numerator / 10000) % 2 ^ 64)

/-- utils.rs `is_native_mint`. -/
def is_native_mint (mint : Nat) : Bool :=
  mint == native_mint_ID

/-- state.rs `MarketplaceConfig`. -/
structure MarketplaceConfig where
  authority : Nat
  treasury : Nat
  fee_bps : Nat
  reward_vault : Nat
  whitelist : Nat
  bump : Nat
  deriving DecidableEq, Repr

/-- state.rs `TokenWhitelist`. -/
structure TokenWhitelist where
  authority : Nat
  allowed_mints : List Nat
  bump : Nat
  deriving DecidableEq, Repr

/-- state.rs `TokenWhitelist::MAX_MINTS`. -/
def TokenWhitelist.MAX_MINTS : Nat := 32

/-- state.rs `ListingAccount`; the `[u8; 32]` seed and hash fields are
abstract `Nat` identities. -/
structure ListingAccount where
  seller : Nat
  mint : Nat
  price_lamports : Nat
  listing_seed : Nat
  offchain_hash : Nat
  active : Bool
  bump : Nat
  deriving DecidableEq, Repr

/-- state.rs `OrderAccount`. -/
structure OrderAccount where
  buyer : Nat
  seller : Nat
  listing : Nat
  mint : Nat
  amount_paid : Nat
  settled : Bool
  bump : Nat
  deriving DecidableEq, Repr

/-- state.rs `SubscriptionPlanAccount`. -/
structure SubscriptionPlanAccount where
  creator : Nat
  mint : Nat
  price_per_period : Nat
  period_seconds : Int
  plan_seed : Nat
  offchain_hash : Nat
  active : Bool
  bump : Nat
  deriving DecidableEq, Repr

/-- state.rs `SubscriptionInstanceAccount`. -/
structure SubscriptionInstanceAccount where
  subscriber : Nat
  plan : Nat
  instance_seed : Nat
  last_payment_at : Int
  bump : Nat
  deriving DecidableEq, Repr

/-- state.rs `ContestAccount`. -/
structure ContestAccount where
  creator : Nat
  reward_pool : Nat
  deadline : Int
  contest_seed : Nat
  offchain_hash : Nat
  prize_lamports : Nat
  settled : Bool
  bump : Nat
  deriving DecidableEq, Repr

/-- state.rs `ContestEntryAccount`. -/
structure ContestEntryAccount where
  contestant : Nat
  contest : Nat
  entry_seed : Nat
  offchain_hash : Nat
  score : Nat
  bump : Nat
  deriving DecidableEq, Repr

/-- An SPL token account as read by `Account::<TokenAccount>::try_from`. -/
structure TokenAccount where
  mint : Nat
  owner : Nat
  amount : Nat
  deriving DecidableEq, Repr

/-- One entry of the positional `remaining_accounts` side table: its address
and, when it deserializes as an SPL token account, that token state. -/
structure RemainingAccount where
  key : Nat
  token : Option TokenAccount
  deriving DecidableEq, Repr

/-- order.rs / subscription.rs `validate_token_account` (both files carry an
identical copy): deserialize, then check mint, then owner. -/
def validate_token_account (account_info : RemainingAccount)
    (expected_mint expected_owner : Nat) : Except TxError TokenAccount :=
  match account_info.token with
  | none => .error .accountInvalid
  | some token_account =>
    if token_account.mint ≠ expected_mint then .error (.program .TokenAccountMintMismatch)
    else if token_account.owner ≠ expected_owner then .error (.program .TokenAccountOwnerMismatch)
    else .ok token_account

/-- An SPL `token::transfer`: fails when the source balance is short. -/
def spl_transfer (source dest : TokenAccount) (amount : Nat) :
    Except TxError (TokenAccount × TokenAccount) :=
  if source.amount < amount then .error .insufficientFunds
  else .ok ({ source with amount := source.amount - amount },
            { dest with amount := dest.amount + amount })

/-- A system-program lamport transfer: fails when the source balance is short. -/
def native_transfer (source_lamports dest_lamports amount : Nat) :
    Except TxError (Nat × Nat) :=
  if source_lamports < amount then .error .insufficientFunds
  else .ok (source_lamports - amount, dest_lamports + amount)

/-- admin.rs `InitializeConfigParams`. -/
structure InitializeConfigParams where
  fee_bps : Nat
  deriving DecidableEq, Repr

/-- admin.rs `initialize_config` (lines 60-78): rejects fee_bps above 10000,
then writes the config record and the empty whitelist. -/
def initialize_config (authority treasury_key reward_key whitelist_key : Nat)
    (params : InitializeConfigParams) (config_bump whitelist_bump : Nat) :
    Except TxError (MarketplaceConfig × TokenWhitelist) :=
  if ¬ params.fee_bps ≤ 10000 then .error (.program .InvalidFeeBps)
  else .ok ({ authority := authority, treasury := treasury_key, fee_bps := params.fee_bps,
              reward_vault := reward_key, whitelist := whitelist_key, bump := config_bump },
            { authority := authority, allowed_mints := [], bump := whitelist_bump })

/-- admin.rs `AdminConfigInput`. -/
structure AdminConfigInput where
  fee_bps : Nat
  treasury : Nat
  reward_vault : Nat
  deriving DecidableEq, Repr

/-- admin.rs `set_admin_config` (lines 100-108). -/
def set_admin_config (config : MarketplaceConfig) (input : AdminConfigInput) :
    Except TxError MarketplaceConfig :=
  if ¬ input.fee_bps ≤ 10000 then .error (.program .InvalidFeeBps)
  else .ok { config with
      fee_bps := input.fee_bps
      treasury := input.treasury
      reward_vault := input.reward_vault }

/-- admin.rs `UpdateWhitelistParams`. -/
structure UpdateWhitelistParams where
  mint : Nat
  add : Bool
  deriving DecidableEq, Repr

/-- admin.rs `update_whitelist` (lines 129-145): `add` pushes after a
duplicate check and a capacity check; remove is `Vec::retain`, embedded
as `List.filter`. -/
def update_whitelist (whitelist : TokenWhitelist) (params : UpdateWhitelistParams) :
    Except TxError TokenWhitelist :=
  if params.add then
    if whitelist.allowed_mints.contains params.mint then
      .error (.program .TokenAlreadyWhitelisted)
    else if ¬ whitelist.allowed_mints.length < TokenWhitelist.MAX_MINTS then
      .error (.program .WhitelistFull)
    else .ok { whitelist with allowed_mints := whitelist.allowed_mints ++ [params.mint] }
  else
    .ok { whitelist with allowed_mints := whitelist.allowed_mints.filter (fun m => m ≠ params.mint) }

/-- admin.rs `withdraw_treasury_native` (lines 174-195).  `rent_exempt_minimum`
is `Rent::get()?.minimum_balance(VaultAccount::LEN + 8)`, a platform
parameter, so it is passed in.  Returns the post-debit vault and destination
balances. -/
def withdraw_treasury_native (amount : Nat)
    (vault_lamports dest_lamports rent_exempt_minimum : Nat) :
    Except TxError (Nat × Nat) :=
  if ¬ 0 < amount then .error (.program .AmountMustBePositive)
  else if vault_lamports < amount then .error (.program .EscrowBalanceTooLow)
  else
    match checked_sub_u64 vault_lamports amount with
    | none => .error (.program .EscrowBalanceTooLow)
    | some remaining =>
      if ¬ remaining ≥ rent_exempt_minimum then .error (.program .RentExemptionViolation)
      else .ok (vault_lamports - amount, dest_lamports + amount)

/-- admin.rs `withdraw_reward_native` (lines 219-240): identical body to
`withdraw_treasury_native`, acting on the reward vault. -/
def withdraw_reward_native (amount : Nat)
    (vault_lamports dest_lamports rent_exempt_minimum : Nat) :
    Except TxError (Nat × Nat) :=
  if ¬ 0 < amount then .error (.program .AmountMustBePositive)
  else if vault_lamports < amount then .error (.program .EscrowBalanceTooLow)
  else
    match checked_sub_u64 vault_lamports amount with
    | none => .error (.program .EscrowBalanceTooLow)
    | some remaining =>
      if ¬ remaining ≥ rent_exempt_minimum then .error (.program .RentExemptionViolation)
      else .ok (vault_lamports - amount, dest_lamports + amount)

/-- listing.rs `CreateListingParams`; the 64-byte seller signature is not
carried because the outcome of its external ed25519 verification is the
`sig_ok` parameter of `create_listing`. -/
structure CreateListingParams where
  listing_seed : Nat
  offchain_hash : Nat
  price_lamports : Nat
  mint : Nat
  deriving DecidableEq, Repr

/-- listing.rs `create_listing` (lines 59-85): verify the seller's off-chain
signature, gate non-native mints on the whitelist, then write the record
Active.  There is no check on `price_lamports`. -/
def create_listing (seller : Nat) (whitelist : TokenWhitelist)
    (params : CreateListingParams) (sig_ok : Bool) (bump : Nat) :
    Except TxError ListingAccount :=
  if ¬ sig_ok then .error (.program .InvalidOffchainSignature)
  else if !is_native_mint params.mint && !(whitelist.allowed_mints.contains params.mint) then
    .error (.program .TokenNotWhitelisted)
  else .ok { seller := seller, mint := params.mint, price_lamports := params.price_lamports,
             listing_seed := params.listing_seed, offchain_hash := params.offchain_hash,
             active := true, bump := bump }

/-- listing.rs `cancel_listing` (lines 111-116), with the Anchor constraint
`listing.seller == seller.key()` of `CancelListing` in front.  The record is
then closed to the treasury by Anchor; only the flag flip is tracked. -/
def cancel_listing (seller : Nat) (listing : ListingAccount) :
    Except TxError ListingAccount :=
  if listing.seller ≠ seller then .error (.program .InvalidAuthority)
  else if ¬ listing.active then .error (.program .ListingNotActive)
  else .ok { listing with active := false }

/-- order.rs `PurchaseListingParams`. -/
structure PurchaseListingParams where
  expected_price : Nat
  deriving DecidableEq, Repr

/-- order.rs `handle_spl_purchase` (lines 149-203): positional side table
[mint, buyer ATA, order ATA, seller ATA, treasury ATA, token_program];
returns the post-transfer buyer and order token accounts. -/
def handle_spl_purchase (listing : ListingAccount) (config : MarketplaceConfig)
    (buyer order_key : Nat) (remaining : List RemainingAccount) (amount : Nat) :
    Except TxError (TokenAccount × TokenAccount) :=
  match remaining with
  | mint_ai :: buyer_token_ai :: order_token_ai :: seller_token_ai ::
      treasury_token_ai :: token_program_ai :: _ =>
    if mint_ai.key ≠ listing.mint then .error (.program .TokenAccountMintMismatch)
    else if token_program_ai.key ≠ tokenProgramId then .error (.program .InvalidTokenProgram)
    else
      match validate_token_account buyer_token_ai listing.mint buyer with
      | .error e => .error e
      | .ok buyer_tok =>
        match validate_token_account order_token_ai listing.mint order_key with
        | .error e => .error e
        | .ok order_tok =>
          match validate_token_account seller_token_ai listing.mint listing.seller with
          | .error e => .error e
          | .ok _ =>
            match validate_token_account treasury_token_ai listing.mint config.treasury with
            | .error e => .error e
            | .ok _ => spl_transfer buyer_tok order_tok amount
  | _ => .error (.program .MissingTokenAccounts)

/-- Post-state of `purchase_listing`: the deactivated listing, the freshly
created order, the native balances of buyer and order escrow, and (on the
SPL path) the post-transfer buyer and order token accounts. -/
structure PurchaseOutcome where
  listing : ListingAccount
  order : OrderAccount
  buyer_lamports : Nat
  order_lamports : Nat
  spl : Option (TokenAccount × TokenAccount)
  deriving DecidableEq, Repr

/-- order.rs `purchase_listing` (lines 55-89), with the Anchor constraint
`listing.active` of `PurchaseListing` in front: check the expected price,
move the price from the buyer into the per-order escrow (native transfer or
SPL transfer), write the order record Funded, deactivate the listing. -/
def purchase_listing (listing : ListingAccount) (listing_key : Nat)
    (config : MarketplaceConfig) (buyer order_key : Nat)
    (params : PurchaseListingParams) (buyer_lamports order_lamports : Nat)
    (remaining : List RemainingAccount) (order_bump : Nat) :
    Except TxError PurchaseOutcome :=
  if ¬ listing.active then .error (.program .ListingNotActive)
  else if listing.price_lamports ≠ params.expected_price then .error (.program .PriceMismatch)
  else
    let new_order : OrderAccount :=
      { buyer := buyer, seller := listing.seller, listing := listing_key,
        mint := listing.mint, amount_paid := listing.price_lamports,
        settled := false, bump := order_bump }
    if is_native_mint listing.mint then
      match native_transfer buyer_lamports order_lamports listing.price_lamports with
      | .error e => .error e
      | .ok (bl, ol) =>
        .ok { listing := { listing with active := false }, order := new_order,
              buyer_lamports := bl, order_lamports := ol, spl := none }
    else
      match handle_spl_purchase listing config buyer order_key remaining listing.price_lamports with
      | .error e => .error e
      | .ok (bt, ot) =>
        .ok { listing := { listing with active := false }, order := new_order,
              buyer_lamports := buyer_lamports, order_lamports := order_lamports,
              spl := some (bt, ot) }

/-- order.rs `handle_spl_finalize` (lines 205-295): positional side table
[mint, order ATA, seller ATA, treasury ATA, token_program]; checks the
escrow token balance, performs the two transfers skipping zero-amount legs,
then closes the escrow token account back to the buyer (an SPL close fails
when the account still holds tokens).  Returns the post-transfer seller and
treasury token accounts. -/
def handle_spl_finalize (order : OrderAccount) (config : MarketplaceConfig)
    (order_key : Nat) (remaining : List RemainingAccount)
    (seller_amount fee_amount : Nat) :
    Except TxError (TokenAccount × TokenAccount) :=
  match remaining with
  | mint_ai :: order_token_ai :: seller_token_ai :: treasury_token_ai :: token_program_ai :: _ =>
    if mint_ai.key ≠ order.mint then .error (.program .TokenAccountMintMismatch)
    else if token_program_ai.key ≠ tokenProgramId then .error (.program .InvalidTokenProgram)
    else
      match validate_token_account order_token_ai order.mint order_key with
      | .error e => .error e
      | .ok order_tok =>
        match validate_token_account seller_token_ai order.mint order.seller with
        | .error e => .error e
        | .ok seller_tok =>
          match validate_token_account treasury_token_ai order.mint config.treasury with
          | .error e => .error e
          | .ok treasury_tok =>
            if ¬ order_tok.amount ≥ seller_amount + fee_amount then
              .error (.program .EscrowBalanceTooLow)
            else
              match (if 0 < seller_amount then spl_transfer order_tok seller_tok seller_amount
                     else .ok (order_tok, seller_tok)) with
              | .error e => .error e
              | .ok (ot1, seller_tok1) =>
                match (if 0 < fee_amount then spl_transfer ot1 treasury_tok fee_amount
                       else .ok (ot1, treasury_tok)) with
                | .error e => .error e
                | .ok (ot2, treasury_tok1) =>
                  if ot2.amount ≠ 0 then .error .splAccountNotEmpty
                  else .ok (seller_tok1, treasury_tok1)
  | _ => .error (.program .MissingTokenAccounts)

/-- Post-state of `finalize_order`: the settled order, the native balances of
escrow (the order account), treasury and seller, and on the SPL path the
post-transfer seller and treasury token accounts (the escrow token account
has been closed).  After the handler, Anchor closes the order record to the
buyer; that closure is outside the handler lines modelled here. -/
structure FinalizeOutcome where
  order : OrderAccount
  escrow_lamports : Nat
  treasury_lamports : Nat
  seller_lamports : Nat
  spl : Option (TokenAccount × TokenAccount)
  deriving DecidableEq, Repr

/-- order.rs `finalize_order` (lines 119-147), with the Anchor constraint
`!order.settled` of `FinalizeOrder` in front: compute the fee split, then on
the native path check the escrow balance and perform the three-way lamport
shuffle, or on the SPL path run `handle_spl_finalize`; finally mark the
order settled. -/
def finalize_order (order : OrderAccount) (config : MarketplaceConfig)
    (order_key : Nat) (escrow_lamports treasury_lamports seller_lamports : Nat)
    (remaining : List RemainingAccount) : Except TxError FinalizeOutcome :=
  if order.settled then .error (.program .OrderAlreadySettled)
  else
    match compute_fee order.amount_paid config.fee_bps with
    | .error e => .error (.program e)
    | .ok fee_amount =>
      match checked_sub_u64 order.amount_paid fee_amount with
      | none => .error (.program .MathOverflow)
      | some seller_amount =>
        if is_native_mint order.mint then
          if ¬ escrow_lamports ≥ order.amount_paid then .error (.program .EscrowBalanceTooLow)
          else
            .ok { order := { order with settled := true },
                  escrow_lamports := escrow_lamports - order.amount_paid,
                  treasury_lamports := treasury_lamports + fee_amount,
                  seller_lamports := seller_lamports + seller_amount,
                  spl := none }
        else
          match handle_spl_finalize order config order_key remaining seller_amount fee_amount with
          | .error e => .error e
          | .ok (st, tt) =>
            .ok { order := { order with settled := true },
                  escrow_lamports := escrow_lamports,
                  treasury_lamports := treasury_lamports,
                  seller_lamports := seller_lamports,
                  spl := some (st, tt) }

/-- subscription.rs `ConfigureSubscriptionParams`. -/
structure ConfigureSubscriptionParams where
  plan_seed : Nat
  offchain_hash : Nat
  price_per_period : Nat
  period_seconds : Int
  mint : Nat
  deriving DecidableEq, Repr

/-- subscription.rs `configure_subscription` (lines 57-80): requires a
positive period (error MathOverflow in the source), gates non-native mints
on the whitelist, then writes the plan Active. -/
def configure_subscription (creator : Nat) (whitelist : TokenWhitelist)
    (params : ConfigureSubscriptionParams) (bump : Nat) :
    Except TxError SubscriptionPlanAccount :=
  if ¬ params.period_seconds > 0 then .error (.program .MathOverflow)
  else if !is_native_mint params.mint && !(whitelist.allowed_mints.contains params.mint) then
    .error (.program .TokenNotWhitelisted)
  else .ok { creator := creator, mint := params.mint,
             price_per_period := params.price_per_period,
             period_seconds := params.period_seconds, plan_seed := params.plan_seed,
             offchain_hash := params.offchain_hash, active := true, bump := bump }

/-- subscription.rs `ProcessSubscriptionPaymentParams`.  `now_ts` is supplied
by the caller, not read from a clock. -/
structure ProcessSubscriptionPaymentParams where
  instance_seed : Nat
  now_ts : Int
  deriving DecidableEq, Repr

/-- subscription.rs `handle_spl_subscription` (lines 188-243): positional side
table [subscriber ATA, creator ATA, treasury ATA, token_program]; two
transfers subscriber to treasury and subscriber to creator, skipping
zero-amount legs.  Returns the post-transfer subscriber, creator and
treasury token accounts. -/
def handle_spl_subscription (plan : SubscriptionPlanAccount)
    (config : MarketplaceConfig) (subscriber : Nat)
    (remaining : List RemainingAccount) (fee_amount creator_amount : Nat) :
    Except TxError (TokenAccount × TokenAccount × TokenAccount) :=
  match remaining with
  | subscriber_token_ai :: creator_token_ai :: treasury_token_ai :: _token_program_ai :: _ =>
    match validate_token_account subscriber_token_ai plan.mint subscriber with
    | .error e => .error e
    | .ok sub_tok =>
      match validate_token_account creator_token_ai plan.mint plan.creator with
      | .error e => .error e
      | .ok creator_tok =>
        match validate_token_account treasury_token_ai plan.mint config.treasury with
        | .error e => .error e
        | .ok treasury_tok =>
          match (if 0 < fee_amount then spl_transfer sub_tok treasury_tok fee_amount
                 else .ok (sub_tok, treasury_tok)) with
          | .error e => .error e
          | .ok (sub1, treasury_tok1) =>
            match (if 0 < creator_amount then spl_transfer sub1 creator_tok creator_amount
                   else .ok (sub1, creator_tok)) with
            | .error e => .error e
            | .ok (sub2, creator_tok1) => .ok (sub2, creator_tok1, treasury_tok1)
  | _ => .error (.program .MissingTokenAccounts)

/-- Post-state of `process_subscription_payment`: the (re)written instance
record, the native balances of subscriber, treasury and plan creator, and
on the SPL path the post-transfer subscriber, creator and treasury token
accounts. -/
structure SubscriptionOutcome where
  inst : SubscriptionInstanceAccount
  subscriber_lamports : Nat
  treasury_lamports : Nat
  creator_lamports : Nat
  spl : Option (TokenAccount × TokenAccount × TokenAccount)
  deriving DecidableEq, Repr

/-- subscription.rs `process_subscription_payment` (lines 121-186): requires
the plan Active; when the instance already exists (`last_payment_at != 0`)
requires `now_ts >= last_payment_at + period_seconds` computed with
`i64::checked_add`; splits the price into fee and creator amount; pays the
two legs subscriber to treasury and subscriber to creator (native or SPL);
then rewrites the instance with `last_payment_at = now_ts`. -/
def process_subscription_payment (plan : SubscriptionPlanAccount)
    (inst : SubscriptionInstanceAccount) (config : MarketplaceConfig)
    (subscriber plan_key : Nat) (params : ProcessSubscriptionPaymentParams)
    (subscriber_lamports treasury_lamports creator_lamports : Nat)
    (remaining : List RemainingAccount) (inst_bump : Nat) :
    Except TxError SubscriptionOutcome :=
  if ¬ plan.active then .error (.program .SubscriptionInactive)
  else
    match (if inst.last_payment_at ≠ 0 then
             match checked_add_i64 inst.last_payment_at plan.period_seconds with
             | none => Except.error (TxError.program .MathOverflow)
             | some next_due =>
               if ¬ params.now_ts ≥ next_due then
                 Except.error (TxError.program .SubscriptionPeriodNotReached)
               else Except.ok ()
           else Except.ok ()) with
    | .error e => .error e
    | .ok () =>
      match compute_fee plan.price_per_period config.fee_bps with
      | .error e => .error (.program e)
      | .ok fee_amount =>
        match checked_sub_u64 plan.price_per_period fee_amount with
        | none => .error (.program .MathOverflow)
        | some creator_amount =>
          let new_inst : SubscriptionInstanceAccount :=
            { subscriber := subscriber, plan := plan_key,
              instance_seed := params.instance_seed,
              last_payment_at := params.now_ts, bump := inst_bump }
          if is_native_mint plan.mint then
            match (if 0 < fee_amount then
                     native_transfer subscriber_lamports treasury_lamports fee_amount
                   else .ok (subscriber_lamports, treasury_lamports)) with
            | .error e => .error e
            | .ok (sub1, tre1) =>
              match (if 0 < creator_amount then native_transfer sub1 creator_lamports creator_amount
                     else .ok (sub1, creator_lamports)) with
              | .error e => .error e
              | .ok (sub2, cre1) =>
                .ok { inst := new_inst, subscriber_lamports := sub2,
                      treasury_lamports := tre1, creator_lamports := cre1, spl := none }
          else
            match handle_spl_subscription plan config subscriber remaining fee_amount creator_amount with
            | .error e => .error e
            | .ok (s, c, t) =>
              .ok { inst := new_inst, subscriber_lamports := subscriber_lamports,
                    treasury_lamports := treasury_lamports,
                    creator_lamports := creator_lamports, spl := some (s, c, t) }

/-- contest.rs `CreateContestParams`. -/
structure CreateContestParams where
  contest_seed : Nat
  offchain_hash : Nat
  deadline : Int
  prize_lamports : Nat
  deriving DecidableEq, Repr

/-- contest.rs `create_contest` (lines 47-71): requires a positive prize and
a future deadline, checks the reward vault balance, then debits the reward
vault and credits the contest escrow by the prize.  `now` is
`Clock::get()?.unix_timestamp`.  No rent-exemption floor is consulted.
Returns the contest record and the post-move reward-vault and contest
balances. -/
def create_contest (creator reward_vault_key : Nat) (params : CreateContestParams)
    (now : Int) (reward_lamports contest_lamports : Nat) (bump : Nat) :
    Except TxError (ContestAccount × Nat × Nat) :=
  if ¬ params.prize_lamports > 0 then .error (.program .InvalidPrizeAmount)
  else if ¬ params.deadline > now then .error (.program .ContestDeadlinePassed)
  else if ¬ reward_lamports ≥ params.prize_lamports then .error (.program .EscrowBalanceTooLow)
  else
    .ok ({ creator := creator, reward_pool := reward_vault_key,
           deadline := params.deadline, contest_seed := params.contest_seed,
           offchain_hash := params.offchain_hash,
           prize_lamports := params.prize_lamports, settled := false, bump := bump },
         reward_lamports - params.prize_lamports,
         contest_lamports + params.prize_lamports)

/-- contest.rs `SubmitContestEntryParams`. -/
structure SubmitContestEntryParams where
  contest_seed : Nat
  entry_seed : Nat
  offchain_hash : Nat
  deriving DecidableEq, Repr

/-- contest.rs `submit_contest_entry` (lines 103-115), with the Anchor
constraint `!contest.settled` of `SubmitContestEntry` in front: requires
`now <= deadline`, then writes the entry record with score 0. -/
def submit_contest_entry (contestant : Nat) (contest : ContestAccount)
    (contest_key : Nat) (params : SubmitContestEntryParams) (now : Int) (bump : Nat) :
    Except TxError ContestEntryAccount :=
  if contest.settled then .error (.program .ContestResolved)
  else if ¬ now ≤ contest.deadline then .error (.program .ContestDeadlinePassed)
  else .ok { contestant := contestant, contest := contest_key,
             entry_seed := params.entry_seed, offchain_hash := params.offchain_hash,
             score := 0, bump := bump }

/-- contest.rs `ResolveContestParams`. -/
structure ResolveContestParams where
  contest_seed : Nat
  entry_seed : Nat
  winner : Nat
  score : Nat
  deriving DecidableEq, Repr

/-- contest.rs `resolve_contest` (lines 158-182), with the Anchor constraint
`!contest.settled` of `ResolveContest` in front: requires the deadline
passed, the winner equal to both the payout destination and the entry's
contestant, a positive prize and a sufficient contest balance; pays the
prize, zeroes it, marks the contest settled and writes the score.  Returns
the contest, the entry, and the post-move contest and winner balances.
Anchor then closes the contest record to the reward vault. -/
def resolve_contest (contest : ContestAccount) (entry : ContestEntryAccount)
    (params : ResolveContestParams) (reward_destination_key : Nat) (now : Int)
    (contest_lamports winner_lamports : Nat) :
    Except TxError (ContestAccount × ContestEntryAccount × Nat × Nat) :=
  if contest.settled then .error (.program .ContestResolved)
  else if ¬ now ≥ contest.deadline then .error (.program .ContestDeadlineNotReached)
  else if params.winner ≠ reward_destination_key then .error (.program .WinnerAccountMismatch)
  else if params.winner ≠ entry.contestant then .error (.program .WinnerAccountMismatch)
  else if ¬ contest.prize_lamports > 0 then .error (.program .InvalidPrizeAmount)
  else if ¬ contest_lamports ≥ contest.prize_lamports then .error (.program .EscrowBalanceTooLow)
  else
    .ok ({ contest with prize_lamports := 0, settled := true },
         { entry with score := params.score },
         contest_lamports - contest.prize_lamports,
         winner_lamports + contest.prize_lamports)

/-- Example marketplace config with fee_bps 250, used by concrete instances. -/
def cfgEx : MarketplaceConfig :=
  { authority := 10, treasury := 11, fee_bps := 250, reward_vault := 12, whitelist := 13,
    bump := 0 }

/-- Example funded native-currency order over 1000 lamports. -/
def ordEx : OrderAccount :=
  { buyer := 20, seller := 21, listing := 22, mint := native_mint_ID, amount_paid := 1000,
    settled := false, bump := 0 }

/-- The example order after settlement. -/
def settledOrdEx : OrderAccount := { ordEx with settled := true }

/-- Example active native-currency listing priced at 1000 lamports. -/
def listingEx : ListingAccount :=
  { seller := 21, mint := native_mint_ID, price_lamports := 1000, listing_seed := 1,
    offchain_hash := 2, active := true, bump := 0 }

/-- Post-state of finalizing the example order from a 1000-lamport escrow. -/
def finalizeOutEx : FinalizeOutcome :=
  { order := { ordEx with settled := true }, escrow_lamports := 0, treasury_lamports := 25,
    seller_lamports := 975, spl := none }

/-- Example open contest with a 5000-lamport prize. -/
def contestEx : ContestAccount :=
  { creator := 30, reward_pool := 12, deadline := 100, contest_seed := 3, offchain_hash := 4,
    prize_lamports := 5000, settled := false, bump := 0 }

/-- The example contest already settled. -/
def settledContestEx : ContestAccount := { contestEx with settled := true }

/-- Example contest entry. -/
def entryEx : ContestEntryAccount :=
  { contestant := 31, contest := 32, entry_seed := 5, offchain_hash := 6, score := 0, bump := 0 }

/-- Example active native-currency plan: 100 lamports per 1-second period. -/
def planEx : SubscriptionPlanAccount :=
  { creator := 40, mint := native_mint_ID, price_per_period := 100, period_seconds := 1,
    plan_seed := 7, offchain_hash := 8, active := true, bump := 0 }

/-- Example fresh subscription instance (`last_payment_at = 0`). -/
def instFreshEx : SubscriptionInstanceAccount :=
  { subscriber := 41, plan := 42, instance_seed := 9, last_payment_at := 0, bump := 0 }

/-- Example instance whose last payment sits at the maximum i64 timestamp. -/
def instMaxEx : SubscriptionInstanceAccount :=
  { instFreshEx with last_payment_at := 2 ^ 63 - 1 }

/-- Example whitelist holding mints 5, 6 and a duplicate 5. -/
def wlEx : TokenWhitelist := { authority := 10, allowed_mints := [5, 6, 5], bump := 0 }

/-- A basis-points fee never exceeds the amount when the rate is at most 10000. -/
theorem fee_le (amount fee_bps : Nat) (hb : fee_bps ≤ 10000) :
    amount * fee_bps / 10000 ≤ amount := by
  have hle : amount * fee_bps ≤ amount * 10000 := Nat.mul_le_mul_left amount hb
  have h1 : amount * fee_bps / 10000 ≤ amount * 10000 / 10000 := Nat.div_le_div_right hle
  have h2 : amount * 10000 / 10000 = amount := Nat.mul_div_cancel amount (by norm_num)
  omega

/-- On the full u64 domain with a valid rate, `compute_fee` is exactly the
floor of `amount * fee_bps / 10000`. -/
theorem compute_fee_eq (amount fee_bps : Nat) (ha : amount < 2 ^ 64)
    (hb : fee_bps ≤ 10000) :
    compute_fee amount fee_bps = .ok (amount * fee_bps / 10000) := by
  rcases Nat.eq_zero_or_pos fee_bps with h0 | h0
  · subst h0; simp [compute_fee]
  · have hne : fee_bps ≠ 0 := Nat.pos_iff_ne_zero.mp h0
    have hle : amount * fee_bps ≤ amount * 10000 := Nat.mul_le_mul_left amount hb
    have hlt : amount * fee_bps < 2 ^ 128 := by
      have h64 : amount * 10000 < 2 ^ 64 * 10000 :=
        Nat.mul_lt_mul_of_lt_of_le ha le_rfl (by norm_num)
      have : (2 : Nat) ^ 64 * 10000 < 2 ^ 128 := by norm_num
      omega
    have hdivle : amount * fee_bps / 10000 ≤ amount := fee_le amount fee_bps hb
    simp only [compute_fee, checked_mul_u128, if_neg hne, if_pos hlt]
    rw [Nat.mod_eq_of_lt (lt_of_le_of_lt hdivle ha)]

/-- C2: for every amount in the u64 domain and every fee rate at most 10000
basis points, `compute_fee` returns `Ok (floor (amount * fee_bps / 10000))`
and never `MathOverflow`; in particular the rate 0 yields 0 and the rate
10000 yields the amount itself. -/
theorem compute_fee_spec (amount fee_bps : Nat) (ha : amount < 2 ^ 64)
    (hb : fee_bps ≤ 10000) :
    compute_fee amount fee_bps = .ok (amount * fee_bps / 10000) ∧
    compute_fee amount 0 = .ok 0 ∧
    compute_fee amount 10000 = .ok amount := by
  refine ⟨compute_fee_eq amount fee_bps ha hb, by simp [compute_fee], ?_⟩
  rw [compute_fee_eq amount 10000 ha le_rfl,
    Nat.mul_div_cancel amount (by norm_num : 0 < 10000)]

/-- Concrete instance of `compute_fee_spec` at amount 1000 and 250 basis
points: the fee is 25. -/
theorem compute_fee_spec_witness :
    1000 < 2 ^ 64 ∧ 250 ≤ 10000 ∧
    (compute_fee 1000 250 = .ok (1000 * 250 / 10000) ∧
     compute_fee 1000 0 = .ok 0 ∧
     compute_fee 1000 10000 = .ok 1000) :=
  ⟨by norm_num, by norm_num, compute_fee_spec 1000 250 (by norm_num) (by norm_num)⟩

/-- C1: every successful native-currency `finalize_order` on an order paying
amount A under fee rate B debits the escrow by exactly A, credits the
treasury by exactly floor (A * B / 10000) and the seller by the rest, so the
sum of the three touched balances is unchanged. -/
theorem finalize_order_native_conservation
    (order : OrderAccount) (config : MarketplaceConfig) (order_key : Nat)
    (escrow treasury seller : Nat) (remaining : List RemainingAccount)
    (out : FinalizeOutcome)
    (hmint : is_native_mint order.mint = true)
    (ha : order.amount_paid < 2 ^ 64) (hb : config.fee_bps ≤ 10000)
    (hok : finalize_order order config order_key escrow treasury seller remaining = .ok out) :
    order.amount_paid ≤ escrow ∧
    out.escrow_lamports = escrow - order.amount_paid ∧
    out.treasury_lamports = treasury + order.amount_paid * config.fee_bps / 10000 ∧
    out.seller_lamports =
      seller + (order.amount_paid - order.amount_paid * config.fee_bps / 10000) ∧
    order.amount_paid * config.fee_bps / 10000 ≤ order.amount_paid ∧
    out.escrow_lamports + out.treasury_lamports + out.seller_lamports =
      escrow + treasury + seller := by
  have hfee := fee_le order.amount_paid config.fee_bps hb
  unfold finalize_order at hok
  rw [compute_fee_eq _ _ ha hb] at hok
  by_cases hs : order.settled
  · simp [hs] at hok
  · rw [if_neg hs] at hok
    unfold checked_sub_u64 at hok
    dsimp only at hok
    rw [if_pos hfee] at hok
    dsimp only at hok
    by_cases he : escrow ≥ order.amount_paid
    · rw [hmint] at hok
      simp only [if_true, if_neg (not_not_intro he), Except.ok.injEq] at hok
      subst hok
      refine ⟨he, rfl, rfl, rfl, hfee, ?_⟩
      simp only
      omega
    · simp [hmint, he] at hok

/-- Concrete instance of `finalize_order_native_conservation`: the scenario
order of 1000 lamports at 250 basis points empties the escrow, pays 25 to
the treasury and 975 to the seller. -/
theorem finalize_order_native_conservation_witness :
    is_native_mint ordEx.mint = true ∧ ordEx.amount_paid < 2 ^ 64 ∧
    cfgEx.fee_bps ≤ 10000 ∧
    finalize_order ordEx cfgEx 5 1000 0 0 [] = .ok finalizeOutEx ∧
    (ordEx.amount_paid ≤ 1000 ∧
     finalizeOutEx.escrow_lamports = 1000 - ordEx.amount_paid ∧
     finalizeOutEx.treasury_lamports = 0 + ordEx.amount_paid * cfgEx.fee_bps / 10000 ∧
     finalizeOutEx.seller_lamports =
       0 + (ordEx.amount_paid - ordEx.amount_paid * cfgEx.fee_bps / 10000) ∧
     ordEx.amount_paid * cfgEx.fee_bps / 10000 ≤ ordEx.amount_paid ∧
     finalizeOutEx.escrow_lamports + finalizeOutEx.treasury_lamports +
       finalizeOutEx.seller_lamports = 1000 + 0 + 0) :=
  ⟨rfl, by norm_num [ordEx], by norm_num [cfgEx], rfl,
   finalize_order_native_conservation ordEx cfgEx 5 1000 0 0 [] finalizeOutEx
     rfl (by norm_num [ordEx]) (by norm_num [cfgEx]) rfl⟩

/-- `validate_token_account` can only fail with a deserialization, mint or
owner error. -/
theorem validate_token_account_errors (acc : RemainingAccount) (em eo : Nat)
    (e : TxError) (h : validate_token_account acc em eo = .error e) :
    e = .accountInvalid ∨ e = .program .TokenAccountMintMismatch ∨
      e = .program .TokenAccountOwnerMismatch := by
  unfold validate_token_account at h
  repeat' split at h
  all_goals simp_all

/-- `spl_transfer` can only fail for lack of funds. -/
theorem spl_transfer_errors (s d : TokenAccount) (amount : Nat) (e : TxError)
    (h : spl_transfer s d amount = .error e) : e = .insufficientFunds := by
  unfold spl_transfer at h
  split at h <;> simp_all

/-- `native_transfer` can only fail for lack of funds. -/
theorem native_transfer_errors (s d amount : Nat) (e : TxError)
    (h : native_transfer s d amount = .error e) : e = .insufficientFunds := by
  unfold native_transfer at h
  split at h <;> simp_all

/-- A zero-leg-skipping transfer can only fail for lack of funds. -/
theorem guarded_spl_transfer_errors (c : Prop) [Decidable c]
    (s d : TokenAccount) (amount : Nat) (e : TxError)
    (h : (if c then spl_transfer s d amount else .ok (s, d)) = .error e) :
    e = .insufficientFunds := by
  split at h
  · exact spl_transfer_errors s d amount e h
  · simp_all

/-- A zero-leg-skipping native transfer can only fail for lack of funds. -/
theorem guarded_native_transfer_errors (c : Prop) [Decidable c]
    (s d amount : Nat) (e : TxError)
    (h : (if c then native_transfer s d amount else .ok (s, d)) = .error e) :
    e = .insufficientFunds := by
  split at h
  · exact native_transfer_errors s d amount e h
  · simp_all

/-- The SPL settlement path never raises MathOverflow: its failures are
account-shape, balance or close errors only. -/
theorem handle_spl_finalize_no_overflow (order : OrderAccount)
    (config : MarketplaceConfig) (order_key : Nat)
    (remaining : List RemainingAccount) (seller_amount fee_amount : Nat) :
    handle_spl_finalize order config order_key remaining seller_amount fee_amount ≠
      .error (.program .MathOverflow) := by
  intro h
  unfold handle_spl_finalize at h
  repeat' split at h
  all_goals simp_all
  all_goals
    first
    | (rcases validate_token_account_errors _ _ _ _ (by assumption) with h1 | h1 | h1 <;>
        simp_all)
    | (have h1 := guarded_spl_transfer_errors _ _ _ _ _ (by assumption); simp_all)

/-- C9: with the config invariant fee_bps at most 10000 (enforced by
`initialize_config` and `set_admin_config`) the computed fee never exceeds
the amount paid, so the seller-amount subtraction in `finalize_order` cannot
underflow and `finalize_order` never fails with MathOverflow on either asset
path. -/
theorem finalize_order_no_math_overflow
    (order : OrderAccount) (config : MarketplaceConfig)
    (ha : order.amount_paid < 2 ^ 64) (hb : config.fee_bps ≤ 10000) :
    (∃ fee, compute_fee order.amount_paid config.fee_bps = .ok fee ∧
       fee ≤ order.amount_paid) ∧
    (∀ order_key escrow treasury seller remaining,
       finalize_order order config order_key escrow treasury seller remaining ≠
         .error (.program .MathOverflow)) ∧
    (∀ authority tk rk wk params cb wb, 10000 < params.fee_bps →
       initialize_config authority tk rk wk params cb wb =
         .error (.program .InvalidFeeBps)) ∧
    (∀ cfg input, 10000 < input.fee_bps →
       set_admin_config cfg input = .error (.program .InvalidFeeBps)) := by
  refine ⟨⟨_, compute_fee_eq _ _ ha hb, fee_le _ _ hb⟩, ?_, ?_, ?_⟩
  · intro order_key escrow treasury seller remaining h
    unfold finalize_order at h
    rw [compute_fee_eq _ _ ha hb] at h
    by_cases hs : order.settled
    · simp [hs] at h
    · rw [if_neg hs] at h
      dsimp only at h
      unfold checked_sub_u64 at h
      rw [if_pos (fee_le _ _ hb)] at h
      dsimp only at h
      split at h
      · split at h <;> simp_all
      · split at h <;> simp_all [handle_spl_finalize_no_overflow]
  · intro authority tk rk wk params cb wb hgt
    simp [initialize_config, Nat.not_le.mpr hgt]
  · intro cfg input hgt
    simp [set_admin_config, Nat.not_le.mpr hgt]

/-- Concrete instance of `finalize_order_no_math_overflow` at the example
order and config. -/
theorem finalize_order_no_math_overflow_witness :
    ordEx.amount_paid < 2 ^ 64 ∧ cfgEx.fee_bps ≤ 10000 ∧
    ((∃ fee, compute_fee ordEx.amount_paid cfgEx.fee_bps = .ok fee ∧
        fee ≤ ordEx.amount_paid) ∧
     (∀ order_key escrow treasury seller remaining,
        finalize_order ordEx cfgEx order_key escrow treasury seller remaining ≠
          .error (.program .MathOverflow)) ∧
     (∀ authority tk rk wk params cb wb, 10000 < params.fee_bps →
        initialize_config authority tk rk wk params cb wb =
          .error (.program .InvalidFeeBps)) ∧
     (∀ cfg input, 10000 < input.fee_bps →
        set_admin_config cfg input = .error (.program .InvalidFeeBps))) :=
  ⟨by norm_num [ordEx], by norm_num [cfgEx],
   finalize_order_no_math_overflow ordEx cfgEx (by norm_num [ordEx]) (by norm_num [cfgEx])⟩

/-- C3: the settled flag transitions false to true exactly once.
`finalize_order` on an already-settled order always fails with
OrderAlreadySettled and `resolve_contest` on an already-settled contest
always fails with ContestResolved; every successful `finalize_order` or
`resolve_contest` leaves the flag true, and the records created by
`purchase_listing` and `create_contest` start with the flag false, so no
operation resets a settled flag from true to false. -/
theorem settled_transitions_exactly_once :
    (∀ (order : OrderAccount) config order_key escrow treasury seller remaining,
       order.settled = true →
       finalize_order order config order_key escrow treasury seller remaining =
         .error (.program .OrderAlreadySettled)) ∧
    (∀ (contest : ContestAccount) entry params dest now cl wl,
       contest.settled = true →
       resolve_contest contest entry params dest now cl wl =
         .error (.program .ContestResolved)) ∧
    (∀ order config order_key escrow treasury seller remaining
       (out : FinalizeOutcome),
       finalize_order order config order_key escrow treasury seller remaining = .ok out →
       out.order.settled = true) ∧
    (∀ contest entry params dest now cl wl (c : ContestAccount) e a b,
       resolve_contest contest entry params dest now cl wl = .ok (c, e, a, b) →
       c.settled = true) ∧
    (∀ listing listing_key config buyer order_key params bl ol remaining ob
       (res : PurchaseOutcome),
       purchase_listing listing listing_key config buyer order_key params bl ol
           remaining ob = .ok res →
       res.order.settled = false) ∧
    (∀ creator rk params now rl cl bump (c : ContestAccount) a b,
       create_contest creator rk params now rl cl bump = .ok (c, a, b) →
       c.settled = false) := by
  refine ⟨?_, ?_, ?_, ?_, ?_, ?_⟩
  · intro order config order_key escrow treasury seller remaining hs
    simp [finalize_order, hs]
  · intro contest entry params dest now cl wl hs
    simp [resolve_contest, hs]
  · intro order config order_key escrow treasury seller remaining out h
    unfold finalize_order at h
    repeat' split at h
    all_goals simp_all
    all_goals (subst h; rfl)
  · intro contest entry params dest now cl wl c e a b h
    unfold resolve_contest at h
    repeat' split at h
    all_goals simp_all
    all_goals (obtain ⟨h1, -⟩ := h; subst h1; rfl)
  · intro listing listing_key config buyer order_key params bl ol remaining ob res h
    unfold purchase_listing at h
    repeat' split at h
    all_goals simp_all
    all_goals (subst h; rfl)
  · intro creator rk params now rl cl bump c a b h
    unfold create_contest at h
    repeat' split at h
    all_goals simp_all
    all_goals (obtain ⟨h1, -⟩ := h; subst h1; rfl)

/-- Concrete instance of `settled_transitions_exactly_once`: the second
settlement attempts on the example order and contest fail. -/
theorem settled_transitions_exactly_once_witness :
    settledOrdEx.settled = true ∧ settledContestEx.settled = true ∧
    finalize_order settledOrdEx cfgEx 5 1000 0 0 [] =
      .error (.program .OrderAlreadySettled) ∧
    resolve_contest settledContestEx entryEx
        { contest_seed := 3, entry_seed := 5, winner := 31, score := 9 } 31 150 5000 0 =
      .error (.program .ContestResolved) :=
  ⟨rfl, rfl,
   settled_transitions_exactly_once.1 settledOrdEx cfgEx 5 1000 0 0 [] rfl,
   settled_transitions_exactly_once.2.1 settledContestEx entryEx
     { contest_seed := 3, entry_seed := 5, winner := 31, score := 9 } 31 150 5000 0 rfl⟩

/-- The SPL purchase path never raises PriceMismatch. -/
theorem handle_spl_purchase_no_price_mismatch (listing : ListingAccount)
    (config : MarketplaceConfig) (buyer order_key : Nat)
    (remaining : List RemainingAccount) (amount : Nat) :
    handle_spl_purchase listing config buyer order_key remaining amount ≠
      .error (.program .PriceMismatch) := by
  intro h
  unfold handle_spl_purchase at h
  repeat' split at h
  all_goals simp_all
  all_goals
    first
    | (rcases validate_token_account_errors _ _ _ _ (by assumption) with h1 | h1 | h1 <;>
        simp_all)
    | (have h1 := spl_transfer_errors _ _ _ _ h; simp_all)

/-- C7: on an active listing, `purchase_listing` fails with PriceMismatch
exactly when the caller-supplied expected price differs from the stored
price; the check precedes every balance movement, and an error return
carries no post-state at all. -/
theorem purchase_listing_price_mismatch_iff
    (listing : ListingAccount) (listing_key : Nat) (config : MarketplaceConfig)
    (buyer order_key : Nat) (params : PurchaseListingParams)
    (bl ol : Nat) (remaining : List RemainingAccount) (ob : Nat)
    (hactive : listing.active = true) :
    purchase_listing listing listing_key config buyer order_key params bl ol
        remaining ob = .error (.program .PriceMismatch) ↔
      params.expected_price ≠ listing.price_lamports := by
  unfold purchase_listing
  rw [if_neg (by simp [hactive])]
  by_cases hp : listing.price_lamports ≠ params.expected_price
  · rw [if_pos hp]
    exact ⟨fun _ heq => hp heq.symm, fun _ => rfl⟩
  · rw [if_neg hp]
    push_neg at hp
    dsimp only
    constructor
    · intro h
      exfalso
      split at h
      · split at h
        · have h1 := native_transfer_errors _ _ _ _ (by assumption)
          simp_all
        · simp_all
      · split at h
        · have h1 : handle_spl_purchase listing config buyer order_key remaining
              listing.price_lamports ≠ .error (.program .PriceMismatch) :=
            handle_spl_purchase_no_price_mismatch listing config buyer order_key
              remaining listing.price_lamports
          simp_all
        · simp_all
    · intro hne
      exact absurd hp.symm hne

/-- Concrete instance of `purchase_listing_price_mismatch_iff` at the example
listing and a wrong expected price. -/
theorem purchase_listing_price_mismatch_iff_witness :
    listingEx.active = true ∧
    (purchase_listing listingEx 22 cfgEx 20 23 { expected_price := 999 } 5000 0 [] 0 =
        .error (.program .PriceMismatch) ↔ (999 : Nat) ≠ listingEx.price_lamports) :=
  ⟨rfl, purchase_listing_price_mismatch_iff listingEx 22 cfgEx 20 23
    { expected_price := 999 } 5000 0 [] 0 rfl⟩

/-- C8: `create_listing` and `configure_subscription` with a non-native mint
missing from the whitelist fail with TokenNotWhitelisted, and with the
native mint their result does not depend on the whitelist contents at all. -/
theorem whitelist_gate_spec
    (seller creator : Nat) (wl wl2 : TokenWhitelist)
    (p : CreateListingParams) (q : ConfigureSubscriptionParams)
    (sig_ok : Bool) (bump bump2 : Nat) :
    (is_native_mint p.mint = false → p.mint ∉ wl.allowed_mints →
       create_listing seller wl p true bump =
         .error (.program .TokenNotWhitelisted)) ∧
    (is_native_mint q.mint = false → 0 < q.period_seconds →
       q.mint ∉ wl.allowed_mints →
       configure_subscription creator wl q bump2 =
         .error (.program .TokenNotWhitelisted)) ∧
    (is_native_mint p.mint = true →
       create_listing seller wl p sig_ok bump =
         create_listing seller wl2 p sig_ok bump) ∧
    (is_native_mint q.mint = true →
       configure_subscription creator wl q bump2 =
         configure_subscription creator wl2 q bump2) := by
  refine ⟨?_, ?_, ?_, ?_⟩
  · intro hn hmem
    have hc : wl.allowed_mints.contains p.mint = false := by
      simpa using hmem
    simp [create_listing, hn, hc, hmem]
  · intro hn hper hmem
    have hc : wl.allowed_mints.contains q.mint = false := by
      simpa using hmem
    simp [configure_subscription, hn, hc, hmem, hper]
  · intro hn
    simp [create_listing, hn]
  · intro hn
    simp [configure_subscription, hn]

/-- Concrete instance of `whitelist_gate_spec`: mint 7 is not whitelisted in
the example whitelist, so the gated operations fail with
TokenNotWhitelisted; with the native mint the whitelist contents are
irrelevant. -/
theorem whitelist_gate_spec_witness :
    create_listing 21 wlEx
        { listing_seed := 1, offchain_hash := 2, price_lamports := 1000, mint := 7 }
        true 0 = .error (.program .TokenNotWhitelisted) ∧
    configure_subscription 40 wlEx
        { plan_seed := 7, offchain_hash := 8, price_per_period := 100,
          period_seconds := 1, mint := 7 } 0 =
      .error (.program .TokenNotWhitelisted) ∧
    create_listing 21 wlEx
        { listing_seed := 1, offchain_hash := 2, price_lamports := 1000,
          mint := native_mint_ID } true 0 =
      create_listing 21 { authority := 0, allowed_mints := [], bump := 0 }
        { listing_seed := 1, offchain_hash := 2, price_lamports := 1000,
          mint := native_mint_ID } true 0 ∧
    configure_subscription 40 wlEx
        { plan_seed := 7, offchain_hash := 8, price_per_period := 100,
          period_seconds := 1, mint := native_mint_ID } 0 =
      configure_subscription 40 { authority := 0, allowed_mints := [], bump := 0 }
        { plan_seed := 7, offchain_hash := 8, price_per_period := 100,
          period_seconds := 1, mint := native_mint_ID } 0 :=
  ⟨(whitelist_gate_spec 21 40 wlEx { authority := 0, allowed_mints := [], bump := 0 }
      { listing_seed := 1, offchain_hash := 2, price_lamports := 1000, mint := 7 }
      { plan_seed := 7, offchain_hash := 8, price_per_period := 100,
        period_seconds := 1, mint := 7 } true 0 0).1 rfl (by decide),
   (whitelist_gate_spec 21 40 wlEx { authority := 0, allowed_mints := [], bump := 0 }
      { listing_seed := 1, offchain_hash := 2, price_lamports := 1000, mint := 7 }
      { plan_seed := 7, offchain_hash := 8, price_per_period := 100,
        period_seconds := 1, mint := 7 } true 0 0).2.1 rfl (by norm_num) (by decide),
   (whitelist_gate_spec 21 40 wlEx { authority := 0, allowed_mints := [], bump := 0 }
      { listing_seed := 1, offchain_hash := 2, price_lamports := 1000,
        mint := native_mint_ID }
      { plan_seed := 7, offchain_hash := 8, price_per_period := 100,
        period_seconds := 1, mint := native_mint_ID } true 0 0).2.2.1 rfl,
   (whitelist_gate_spec 21 40 wlEx { authority := 0, allowed_mints := [], bump := 0 }
      { listing_seed := 1, offchain_hash := 2, price_lamports := 1000,
        mint := native_mint_ID }
      { plan_seed := 7, offchain_hash := 8, price_per_period := 100,
        period_seconds := 1, mint := native_mint_ID } true 0 0).2.2.2 rfl⟩

/-- C10: removing a mint from the whitelist always succeeds; when the mint is
absent the list is returned exactly unchanged, and when present exactly its
occurrences are dropped, keeping the remaining entries in order (the result
is a sublist) with their multiplicities intact. -/
theorem update_whitelist_remove_spec (whitelist : TokenWhitelist) (mint : Nat) :
    ∃ result, update_whitelist whitelist { mint := mint, add := false } = .ok result ∧
      result.authority = whitelist.authority ∧
      result.allowed_mints.Sublist whitelist.allowed_mints ∧
      mint ∉ result.allowed_mints ∧
      (∀ x, x ≠ mint →
        result.allowed_mints.count x = whitelist.allowed_mints.count x) ∧
      (mint ∉ whitelist.allowed_mints → result = whitelist) := by
  refine ⟨_, rfl, rfl, List.filter_sublist _, ?_, ?_, ?_⟩
  · simp
  · intro x hx
    exact List.count_filter (by simpa using hx)
  · intro hmem
    have hself : List.filter (fun m => !decide (m = mint)) whitelist.allowed_mints =
        whitelist.allowed_mints :=
      List.filter_eq_self.mpr (fun a ha => by
        simp only [Bool.not_eq_true', decide_eq_false_iff_not]
        exact fun h => hmem (h ▸ ha))
    simp [hself]

/-- Concrete instance of `update_whitelist_remove_spec` on the example
whitelist and the duplicated mint 5. -/
theorem update_whitelist_remove_spec_witness :
    ∃ result, update_whitelist wlEx { mint := 5, add := false } = .ok result ∧
      result.authority = wlEx.authority ∧
      result.allowed_mints.Sublist wlEx.allowed_mints ∧
      5 ∉ result.allowed_mints ∧
      (∀ x, x ≠ 5 → result.allowed_mints.count x = wlEx.allowed_mints.count x) ∧
      (5 ∉ wlEx.allowed_mints → result = wlEx) :=
  update_whitelist_remove_spec wlEx 5

/-- C4 counterexample: `create_contest` debits the reward vault from 5 down
to 0 — below any positive rent-exempt minimum — and succeeds rather than
failing with RentExemptionViolation; the code consults no rent floor. -/
theorem create_contest_skips_rent_floor :
    create_contest 30 12
        { contest_seed := 3, offchain_hash := 4, deadline := 1, prize_lamports := 5 }
        0 5 0 0 =
      .ok ({ creator := 30, reward_pool := 12, deadline := 1, contest_seed := 3,
             offchain_hash := 4, prize_lamports := 5, settled := false, bump := 0 },
           0, 5) := rfl

/-- C4 amended: the admin withdrawal instructions enforce the rent-exempt
floor — any debit leaving the vault below the minimum fails with
RentExemptionViolation — but the reward-vault debit of `create_contest`
performs no rent-exemption check and can never return that error. -/
theorem admin_vault_rent_floor
    (amount vault dest rent_min : Nat)
    (hpos : 0 < amount) (hbal : amount ≤ vault) (hfloor : vault - amount < rent_min) :
    withdraw_treasury_native amount vault dest rent_min =
        .error (.program .RentExemptionViolation) ∧
    withdraw_reward_native amount vault dest rent_min =
        .error (.program .RentExemptionViolation) ∧
    (∀ creator rk params now rl cl bump,
       create_contest creator rk params now rl cl bump ≠
         .error (.program .RentExemptionViolation)) := by
  refine ⟨?_, ?_, ?_⟩
  · unfold withdraw_treasury_native checked_sub_u64
    rw [if_neg (not_not_intro hpos), if_neg (by omega), if_pos hbal]
    dsimp only
    rw [if_pos (by omega)]
  · unfold withdraw_reward_native checked_sub_u64
    rw [if_neg (not_not_intro hpos), if_neg (by omega), if_pos hbal]
    dsimp only
    rw [if_pos (by omega)]
  · intro creator rk params now rl cl bump h
    unfold create_contest at h
    repeat' split at h
    all_goals simp_all

/-- Concrete instance of `admin_vault_rent_floor`: fully draining a 5-lamport
vault violates a rent floor of 1. -/
theorem admin_vault_rent_floor_witness :
    0 < 5 ∧ 5 ≤ 5 ∧ 5 - 5 < 1 ∧
    (withdraw_treasury_native 5 5 0 1 = .error (.program .RentExemptionViolation) ∧
     withdraw_reward_native 5 5 0 1 = .error (.program .RentExemptionViolation) ∧
     (∀ creator rk params now rl cl bump,
        create_contest creator rk params now rl cl bump ≠
          .error (.program .RentExemptionViolation))) :=
  ⟨by norm_num, by norm_num, by norm_num,
   admin_vault_rent_floor 5 5 0 1 (by norm_num) (by norm_num) (by norm_num)⟩

/-- C5 counterexample: `create_listing` accepts a price of 0 — the claimed
positivity requirement is not checked anywhere. -/
theorem create_listing_accepts_zero_price :
    create_listing 21 wlEx
        { listing_seed := 1, offchain_hash := 2, price_lamports := 0,
          mint := native_mint_ID } true 0 =
      .ok { seller := 21, mint := native_mint_ID, price_lamports := 0,
            listing_seed := 1, offchain_hash := 2, active := true, bump := 0 } := rfl

/-- C5 amended: `create_listing` performs no positivity check on the price; a
created listing stores exactly the supplied price (including 0), and the
price is never mutated by the listing operations (`purchase_listing`
deactivates but keeps the price, `cancel_listing` only clears the flag). -/
theorem create_listing_price_passthrough
    (seller : Nat) (wl : TokenWhitelist) (p : CreateListingParams)
    (sig_ok : Bool) (bump : Nat) :
    (∀ l, create_listing seller wl p sig_ok bump = .ok l →
       l.price_lamports = p.price_lamports ∧ l.active = true) ∧
    (sig_ok = true → is_native_mint p.mint = true →
       create_listing seller wl p sig_ok bump =
         .ok { seller := seller, mint := p.mint, price_lamports := p.price_lamports,
               listing_seed := p.listing_seed, offchain_hash := p.offchain_hash,
               active := true, bump := bump }) ∧
    (∀ listing listing_key config buyer order_key params2 bl ol remaining ob
       (res : PurchaseOutcome),
       purchase_listing listing listing_key config buyer order_key params2 bl ol
           remaining ob = .ok res →
       res.listing.price_lamports = listing.price_lamports) ∧
    (∀ s l l2, cancel_listing s l = .ok l2 →
       l2.price_lamports = l.price_lamports) := by
  refine ⟨?_, ?_, ?_, ?_⟩
  · intro l h
    unfold create_listing at h
    repeat' split at h
    all_goals simp_all
    all_goals (subst h; exact ⟨rfl, rfl⟩)
  · intro hsig hn
    simp [create_listing, hsig, hn]
  · intro listing listing_key config buyer order_key params2 bl ol remaining ob res h
    unfold purchase_listing at h
    repeat' split at h
    all_goals simp_all
    all_goals (subst h; rfl)
  · intro s l l2 h
    unfold cancel_listing at h
    repeat' split at h
    all_goals simp_all
    all_goals (subst h; rfl)

/-- Concrete instance of `create_listing_price_passthrough` at the example
seller, whitelist and a native listing worth 1000. -/
theorem create_listing_price_passthrough_witness :
    (∀ l, create_listing 21 wlEx
        { listing_seed := 1, offchain_hash := 2, price_lamports := 1000,
          mint := native_mint_ID } true 0 = .ok l →
       l.price_lamports = 1000 ∧ l.active = true) ∧
    (true = true → is_native_mint native_mint_ID = true →
       create_listing 21 wlEx
           { listing_seed := 1, offchain_hash := 2, price_lamports := 1000,
             mint := native_mint_ID } true 0 =
         .ok { seller := 21, mint := native_mint_ID, price_lamports := 1000,
               listing_seed := 1, offchain_hash := 2, active := true, bump := 0 }) ∧
    (∀ listing listing_key config buyer order_key params2 bl ol remaining ob
       (res : PurchaseOutcome),
       purchase_listing listing listing_key config buyer order_key params2 bl ol
           remaining ob = .ok res →
       res.listing.price_lamports = listing.price_lamports) ∧
    (∀ s l l2, cancel_listing s l = .ok l2 →
       l2.price_lamports = l.price_lamports) :=
  create_listing_price_passthrough 21 wlEx
    { listing_seed := 1, offchain_hash := 2, price_lamports := 1000,
      mint := native_mint_ID } true 0

/-- `compute_fee` can only fail with MathOverflow. -/
theorem compute_fee_errors (a b : Nat) (e : EvmFactoryError)
    (h : compute_fee a b = .error e) : e = .MathOverflow := by
  unfold compute_fee checked_mul_u128 at h
  repeat' split at h
  all_goals simp_all

/-- The SPL subscription path never raises SubscriptionPeriodNotReached. -/
theorem handle_spl_subscription_no_period_error (plan : SubscriptionPlanAccount)
    (config : MarketplaceConfig) (subscriber : Nat)
    (remaining : List RemainingAccount) (fee_amount creator_amount : Nat) :
    handle_spl_subscription plan config subscriber remaining fee_amount creator_amount ≠
      .error (.program .SubscriptionPeriodNotReached) := by
  intro h
  unfold handle_spl_subscription at h
  repeat' split at h
  all_goals simp_all
  all_goals
    first
    | (rcases validate_token_account_errors _ _ _ _ (by assumption) with h1 | h1 | h1 <;>
        simp_all)
    | (have h1 := guarded_spl_transfer_errors _ _ _ _ _ (by assumption); simp_all)

/-- C6 counterexample: with `last_payment_at` at the maximum i64 timestamp and
period 1 the next-due time overflows i64, so the second payment fails with
MathOverflow rather than the claimed SubscriptionPeriodNotReached, although
`now_ts = 0` is well before `last_payment_at + period_seconds`. -/
theorem subscription_gate_overflow :
    process_subscription_payment planEx instMaxEx cfgEx 41 42
        { instance_seed := 9, now_ts := 0 } 10000 0 0 [] 0 =
      .error (.program .MathOverflow) ∧
    (0 : Int) < instMaxEx.last_payment_at + planEx.period_seconds ∧
    TxError.program .MathOverflow ≠ TxError.program .SubscriptionPeriodNotReached := by
  refine ⟨rfl, ?_, by decide⟩
  norm_num [instMaxEx, instFreshEx, planEx]

/-- C6 amended: on an active plan, a fresh instance (`last_payment_at = 0`)
pays without any period check and the instance records `now_ts`; a
non-fresh instance fails with SubscriptionPeriodNotReached exactly while
`now_ts` is before `last_payment_at + period_seconds` whenever that sum is
representable in i64, and fails with MathOverflow instead when the sum
overflows; every successful payment sets `last_payment_at` to `now_ts`. -/
theorem subscription_period_gate
    (plan : SubscriptionPlanAccount) (inst : SubscriptionInstanceAccount)
    (config : MarketplaceConfig) (subscriber plan_key : Nat)
    (params : ProcessSubscriptionPaymentParams)
    (sl tl cl : Nat) (remaining : List RemainingAccount) (ib : Nat)
    (hactive : plan.active = true) :
    (inst.last_payment_at = 0 → is_native_mint plan.mint = true →
     plan.price_per_period < 2 ^ 64 → config.fee_bps ≤ 10000 →
     plan.price_per_period ≤ sl →
     ∃ out, process_subscription_payment plan inst config subscriber plan_key
         params sl tl cl remaining ib = .ok out ∧
       out.inst.last_payment_at = params.now_ts) ∧
    (inst.last_payment_at ≠ 0 →
     -(2 ^ 63) ≤ inst.last_payment_at + plan.period_seconds →
     inst.last_payment_at + plan.period_seconds ≤ 2 ^ 63 - 1 →
     params.now_ts < inst.last_payment_at + plan.period_seconds →
     process_subscription_payment plan inst config subscriber plan_key params
         sl tl cl remaining ib = .error (.program .SubscriptionPeriodNotReached)) ∧
    (inst.last_payment_at ≠ 0 →
     -(2 ^ 63) ≤ inst.last_payment_at + plan.period_seconds →
     inst.last_payment_at + plan.period_seconds ≤ 2 ^ 63 - 1 →
     inst.last_payment_at + plan.period_seconds ≤ params.now_ts →
     process_subscription_payment plan inst config subscriber plan_key params
         sl tl cl remaining ib ≠ .error (.program .SubscriptionPeriodNotReached)) ∧
    (inst.last_payment_at ≠ 0 →
     ¬ (-(2 ^ 63) ≤ inst.last_payment_at + plan.period_seconds ∧
        inst.last_payment_at + plan.period_seconds ≤ 2 ^ 63 - 1) →
     process_subscription_payment plan inst config subscriber plan_key params
         sl tl cl remaining ib = .error (.program .MathOverflow)) ∧
    (∀ out, process_subscription_payment plan inst config subscriber plan_key
         params sl tl cl remaining ib = .ok out →
       out.inst.last_payment_at = params.now_ts) := by
  refine ⟨?_, ?_, ?_, ?_, ?_⟩
  · intro h0 hn hprice hb hfunds
    have hfee := fee_le plan.price_per_period config.fee_bps hb
    unfold process_subscription_payment
    rw [if_neg (by simp [hactive]), if_neg (by simp [h0])]
    dsimp only
    rw [compute_fee_eq _ _ hprice hb]
    dsimp only
    unfold checked_sub_u64
    rw [if_pos hfee]
    dsimp only
    rw [if_pos hn]
    unfold native_transfer
    by_cases hf : 0 < plan.price_per_period * config.fee_bps / 10000
    · rw [if_pos hf, if_neg (show ¬ sl < plan.price_per_period * config.fee_bps / 10000
        by omega)]
      dsimp only
      by_cases hc2 : 0 < plan.price_per_period -
          plan.price_per_period * config.fee_bps / 10000
      · rw [if_pos hc2, if_neg (by omega)]
        dsimp only
        exact ⟨_, rfl, rfl⟩
      · rw [if_neg hc2]
        dsimp only
        exact ⟨_, rfl, rfl⟩
    · rw [if_neg hf]
      dsimp only
      by_cases hc2 : 0 < plan.price_per_period -
          plan.price_per_period * config.fee_bps / 10000
      · rw [if_pos hc2, if_neg (by omega)]
        dsimp only
        exact ⟨_, rfl, rfl⟩
      · rw [if_neg hc2]
        dsimp only
        exact ⟨_, rfl, rfl⟩
  · intro hL hlo hhi hnow
    unfold process_subscription_payment checked_add_i64
    rw [if_neg (by simp [hactive]), if_pos hL, if_pos ⟨hlo, hhi⟩]
    dsimp only
    rw [if_pos (by omega : ¬ params.now_ts ≥ inst.last_payment_at + plan.period_seconds)]
  · intro hL hlo hhi hnow h
    unfold process_subscription_payment checked_add_i64 at h
    rw [if_neg (by simp [hactive]), if_pos hL, if_pos ⟨hlo, hhi⟩] at h
    dsimp only at h
    rw [if_neg (by omega :
      ¬ ¬ params.now_ts ≥ inst.last_payment_at + plan.period_seconds)] at h
    dsimp only at h
    repeat' split at h
    all_goals simp_all
    all_goals
      first
      | (have h1 := guarded_native_transfer_errors _ _ _ _ _ (by assumption); simp_all)
      | (have h1 := compute_fee_errors _ _ _ (by assumption); simp_all)
      | exact absurd (by assumption)
          (handle_spl_subscription_no_period_error _ _ _ _ _ _)
  · intro hL hno
    unfold process_subscription_payment checked_add_i64
    rw [if_neg (by simp [hactive]), if_pos hL, if_neg hno]
  · intro out h
    unfold process_subscription_payment at h
    repeat' split at h
    all_goals simp_all
    all_goals (subst h; rfl)

/-- Concrete instance of `subscription_period_gate`: a first payment on the
example plan at `now_ts = 42` succeeds and stamps 42. -/
theorem subscription_period_gate_witness :
    planEx.active = true ∧ instFreshEx.last_payment_at = 0 ∧
    is_native_mint planEx.mint = true ∧ planEx.price_per_period < 2 ^ 64 ∧
    cfgEx.fee_bps ≤ 10000 ∧ planEx.price_per_period ≤ 10000 ∧
    (∃ out, process_subscription_payment planEx instFreshEx cfgEx 41 42
        { instance_seed := 9, now_ts := 42 } 10000 0 0 [] 0 = .ok out ∧
      out.inst.last_payment_at = 42) :=
  ⟨rfl, rfl, rfl, by norm_num [planEx], by norm_num [cfgEx], by norm_num [planEx],
   (subscription_period_gate planEx instFreshEx cfgEx 41 42
      { instance_seed := 9, now_ts := 42 } 10000 0 0 [] 0 rfl).1 rfl rfl
     (by norm_num [planEx]) (by norm_num [cfgEx]) (by norm_num [planEx])⟩

end EvmFactory
